import Mathlib

/-!
Shallow embedding of the client-side filter/sort/search pipeline of the
learning-objectives browsing UI (`src/components/LearningObjectivesInterface.tsx`
and its two near-duplicate variants, `unnamed/part_000` and `unnamed/part_001`).

Modelling conventions:
* Row fields typed `string` in the source are embedded as `Option String`,
  because the runtime guards (`?.` optional chaining in the search predicate,
  `|| ""` in the sort comparator, `=== value` against possibly-null fields)
  only make sense for possibly-missing values.
* JavaScript `String.prototype.includes` is embedded as list-infix of the
  character lists; `toLowerCase` as lowering each character.
* `localeCompare` is embedded as code-point lexicographic comparison on
  `String` (the `LinearOrder String` order); `Array.prototype.sort`, which is
  stable per the ECMAScript specification, is embedded as `List.mergeSort`.
* React state updates become explicit state passing.
-/

/-- One row of the learning-objectives table, per the `LearningObjective`
interface. Every text field may be missing at runtime. -/
structure LearningObjective where
  id : Int
  objective : Option String
  plainLanguage : Option String
  gradeLevel : Option String
  subject : Option String
  belowBasic : Option String
  standard : Option String
  proficient : Option String
  advanced : Option String
  priorityLevel : Option String
  rationaleForPriorityLevel : Option String
  basic : Option String
deriving DecidableEq

/-- JavaScript `toLowerCase`, embedded as lowering each character. -/
def strToLower (s : String) : String :=
  ⟨s.data.map Char.toLower⟩

/-- JavaScript `t.includes (s)`: `s` occurs as a contiguous substring of `t`. -/
def strIncludes (t s : String) : Bool :=
  decide (s.data <:+: t.data)

/-- One disjunct of the search predicate:
`field?.toLowerCase().includes(searchTerm.toLowerCase())`.
A missing field makes the disjunct false (the optional chain yields
`undefined`, which is falsy). -/
def containsCI (field : Option String) (searchTerm : String) : Bool :=
  match field with
  | none => false
  | some t => strIncludes (strToLower t) (strToLower searchTerm)

/-- `matchesSearch` of `filteredAndSortedObjectives`: the empty search matches
everything; otherwise case-insensitive substring match against `Objective`,
`Standard`, or `Plain Language`. -/
def matchesSearch (obj : LearningObjective) (searchTerm : String) : Bool :=
  searchTerm == "" ||
  containsCI obj.objective searchTerm ||
  containsCI obj.standard searchTerm ||
  containsCI obj.plainLanguage searchTerm

/-- The grade used for filtering in the multi-select variant: `Subject`
"Algebra I" is remapped to "8th" regardless of the stored `Grade Level`. -/
def effectiveGrade (obj : LearningObjective) : Option String :=
  if obj.subject == some "Algebra I" then some "8th" else obj.gradeLevel

/-- `matchesGrade` of the multi-select variant:
`selectedGrades.length === 0 || selectedGrades.includes(objectiveGrade)`.
A missing effective grade is never an element of a list of strings. -/
def matchesGrade (obj : LearningObjective) (selectedGrades : List String) : Bool :=
  selectedGrades.isEmpty ||
  (match effectiveGrade obj with
   | some g => selectedGrades.contains g
   | none => false)

/-- `matchesSubject`:
`subjectFilter === "all" || subjectFilter === "" || obj["Subject"] === subjectFilter`. -/
def matchesSubject (obj : LearningObjective) (subjectFilter : String) : Bool :=
  subjectFilter == "all" || subjectFilter == "" || obj.subject == some subjectFilter

/-- `matchesPriority`:
`priorityFilter === "all" || priorityFilter === "" || obj["Priority Level"] === priorityFilter`. -/
def matchesPriority (obj : LearningObjective) (priorityFilter : String) : Bool :=
  priorityFilter == "all" || priorityFilter == "" || obj.priorityLevel == some priorityFilter

/-- The combined row-visibility predicate of the main variant's filter. -/
def visibleRow (obj : LearningObjective) (searchTerm : String)
    (selectedGrades : List String) (subjectFilter priorityFilter : String) : Bool :=
  matchesSearch obj searchTerm && matchesGrade obj selectedGrades &&
  matchesSubject obj subjectFilter && matchesPriority obj priorityFilter

/-- The main variant's `sortBy` state is typed `"subject" | "priority"`. -/
inductive SortBy where
  | subject
  | priority
deriving DecidableEq

/-- The field selected by the sort switch; `(a[field] || "")` treats a missing
value as the empty string. -/
def sortField : SortBy → LearningObjective → String
  | SortBy.subject, obj => obj.subject.getD ""
  | SortBy.priority, obj => obj.priorityLevel.getD ""

/-- The sort comparator as a boolean "at most" relation:
`(a[field] || "").localeCompare(b[field] || "") ≤ 0`, with `localeCompare`
embedded as code-point lexicographic comparison. -/
def rowLE (sortBy : SortBy) (a b : LearningObjective) : Bool :=
  decide (sortField sortBy a ≤ sortField sortBy b)

/-- The filter stage of `filteredAndSortedObjectives` (main variant). -/
def filterObjectives (objectives : List LearningObjective) (searchTerm : String)
    (selectedGrades : List String) (subjectFilter priorityFilter : String) :
    List LearningObjective :=
  objectives.filter
    (fun obj => visibleRow obj searchTerm selectedGrades subjectFilter priorityFilter)

/-- `filteredAndSortedObjectives` of the main variant: filter by search and the
three facets, then stable-sort by the active sort key. -/
def filteredAndSortedObjectives (objectives : List LearningObjective)
    (searchTerm : String) (selectedGrades : List String)
    (subjectFilter priorityFilter : String) (sortBy : SortBy) :
    List LearningObjective :=
  (filterObjectives objectives searchTerm selectedGrades subjectFilter priorityFilter).mergeSort
    (rowLE sortBy)

/-- Fixed grade options of the multi-select widget (`availableGrades`). -/
def availableGrades : List String := ["6th", "7th", "8th"]

/-- Initial value of the main variant's `sortBy` state (`useState("subject")`). -/
def defaultSortBy : SortBy := SortBy.subject

/-- The `part_000` variant's `sortBy` state is typed
`"grade" | "subject" | "priority"`. -/
inductive SortByV0 where
  | grade
  | subject
  | priority
deriving DecidableEq

/-- Sort field of the `part_000` variant (grade key included). -/
def sortFieldV0 : SortByV0 → LearningObjective → String
  | SortByV0.grade, obj => obj.gradeLevel.getD ""
  | SortByV0.subject, obj => obj.subject.getD ""
  | SortByV0.priority, obj => obj.priorityLevel.getD ""

/-- Sort comparator of the `part_000` variant as a boolean "at most" relation. -/
def rowLEV0 (sortBy : SortByV0) (a b : LearningObjective) : Bool :=
  decide (sortFieldV0 sortBy a ≤ sortFieldV0 sortBy b)

/-- `matchesGrade` of the single-select variants (`part_000`, `part_001`):
sentinel "all"/"" or exact equality of the stored `Grade Level` (no remap). -/
def matchesGradeV0 (obj : LearningObjective) (gradeFilter : String) : Bool :=
  gradeFilter == "all" || gradeFilter == "" || obj.gradeLevel == some gradeFilter

/-- The filter stage of `filteredAndSortedObjectives` in `part_000`. -/
def filterObjectivesV0 (objectives : List LearningObjective) (searchTerm : String)
    (gradeFilter subjectFilter priorityFilter : String) : List LearningObjective :=
  objectives.filter (fun obj =>
    matchesSearch obj searchTerm && matchesGradeV0 obj gradeFilter &&
    matchesSubject obj subjectFilter && matchesPriority obj priorityFilter)

/-- `filteredAndSortedObjectives` of the `part_000` variant. -/
def filteredAndSortedObjectivesV0 (objectives : List LearningObjective)
    (searchTerm : String) (gradeFilter subjectFilter priorityFilter : String)
    (sortBy : SortByV0) : List LearningObjective :=
  (filterObjectivesV0 objectives searchTerm gradeFilter subjectFilter priorityFilter).mergeSort
    (rowLEV0 sortBy)

/-- `toggleExpanded`: copy the expanded-row set, delete the id if present,
insert it if absent. -/
def toggleExpanded (id : Int) (expandedRows : Finset Int) : Finset Int :=
  if id ∈ expandedRows then expandedRows.erase id else insert id expandedRows

/-- The `{ data, error }` shape returned by the remote select query. -/
structure FetchResult where
  data : Option (List LearningObjective)
  error : Option String

/-- The component state touched by the loader. -/
structure ComponentState where
  objectives : List LearningObjective
  loading : Bool
  errorLog : List String

/-- Initial component state: `useState([])`, `useState(true)`, empty log. -/
def initialState : ComponentState :=
  { objectives := [], loading := true, errorLog := [] }

/-- `fetchObjectives`: on error, log and leave the row set untouched; on
success, store `data || []`; either way clear the loading flag. -/
def fetchObjectives (res : FetchResult) (st : ComponentState) : ComponentState :=
  match res.error with
  | some e =>
    { st with
      errorLog := st.errorLog ++ ["Error fetching learning objectives: " ++ e]
      loading := false }
  | none =>
    { st with objectives := res.data.getD [], loading := false }

/-- The render condition of the static "no results" card:
`filteredAndSortedObjectives.length === 0`. -/
def showNoResults (st : ComponentState) (searchTerm : String)
    (selectedGrades : List String) (subjectFilter priorityFilter : String)
    (sortBy : SortBy) : Bool :=
  (filteredAndSortedObjectives st.objectives searchTerm selectedGrades
    subjectFilter priorityFilter sortBy).length == 0

/-- `getPriorityBadgeColor`: classify a priority label by case-insensitive
substring, with a muted fallback. -/
def getPriorityBadgeColor (priority : Option String) : String :=
  let priorityLower := strToLower (priority.getD "")
  if strIncludes priorityLower "high" then "bg-priority-high text-white"
  else if strIncludes priorityLower "moderate" then "bg-priority-moderate text-white"
  else if strIncludes priorityLower "medium" then "bg-priority-medium text-white"
  else if strIncludes priorityLower "low" then "bg-priority-low text-white"
  else "bg-muted text-muted-foreground"

/-- A row with every optional text field missing; base row for concrete tests. -/
def blankRow : LearningObjective :=
  { id := 0, objective := none, plainLanguage := none, gradeLevel := none,
    subject := none, belowBasic := none, standard := none, proficient := none,
    advanced := none, priorityLevel := none, rationaleForPriorityLevel := none,
    basic := none }

/-- The remap-scenario row: Subject "Algebra I" with stored Grade Level "7th". -/
def row3 : LearningObjective :=
  { blankRow with id := 3, subject := some "Algebra I", gradeLevel := some "7th" }

/-- Unfolding of one search disjunct into an explicit substring statement. -/
theorem containsCI_eq_true_iff (field : Option String) (s : String) :
    containsCI field s = true ↔
      ∃ t, field = some t ∧ (strToLower s).data <:+: (strToLower t).data := by
  cases field <;> simp [containsCI, strIncludes]

/-- The grade facet of the multi-select variant, written as the specification
states it: the selected set is empty, or the row's effective grade (remapped to
"8th" for Subject "Algebra I", otherwise the stored Grade Level) is a member of
the selected set. -/
def gradeFacetSpec (r : LearningObjective) (selected : List String) : Prop :=
  selected = [] ∨
  (if r.subject = some "Algebra I" then "8th" ∈ selected
   else ∃ g, r.gradeLevel = some g ∧ g ∈ selected)

/-- C1: a row is in the visible set iff it is an input row matching the search
criterion and every facet filter; equivalently, membership in the visible set
is exactly simultaneous membership in the four per-criterion filtered subsets. -/
theorem visible_iff_search_and_all_facets
    (objectives : List LearningObjective) (searchTerm : String)
    (selectedGrades : List String) (subjectFilter priorityFilter : String)
    (sortBy : SortBy) (r : LearningObjective) :
    (r ∈ filteredAndSortedObjectives objectives searchTerm selectedGrades
        subjectFilter priorityFilter sortBy ↔
      r ∈ objectives ∧ matchesSearch r searchTerm = true ∧
      matchesGrade r selectedGrades = true ∧ matchesSubject r subjectFilter = true ∧
      matchesPriority r priorityFilter = true) ∧
    (r ∈ filteredAndSortedObjectives objectives searchTerm selectedGrades
        subjectFilter priorityFilter sortBy ↔
      r ∈ objectives.filter (fun o => matchesSearch o searchTerm) ∧
      r ∈ objectives.filter (fun o => matchesGrade o selectedGrades) ∧
      r ∈ objectives.filter (fun o => matchesSubject o subjectFilter) ∧
      r ∈ objectives.filter (fun o => matchesPriority o priorityFilter)) := by
  constructor <;>
  · simp only [filteredAndSortedObjectives, filterObjectives, visibleRow,
      List.mem_mergeSort, List.mem_filter, Bool.and_eq_true]
    tauto

/-- C9: toggling row `i` flips exactly `i`'s membership in the expanded-row
set; every other id keeps its membership. -/
theorem toggleExpanded_only_changes_toggled_id (E : Finset Int) (i j : Int)
    (h : j ≠ i) :
    (i ∈ toggleExpanded i E ↔ i ∉ E) ∧ (j ∈ toggleExpanded i E ↔ j ∈ E) := by
  unfold toggleExpanded
  by_cases hi : i ∈ E <;> simp [hi, h]

/-- Witness for C9 at a concrete set and pair of ids. -/
theorem toggleExpanded_only_changes_toggled_id_witness :
    (1 ∈ toggleExpanded 1 {1, 2} ↔ 1 ∉ ({1, 2} : Finset Int)) ∧
    (2 ∈ toggleExpanded 1 {1, 2} ↔ 2 ∈ ({1, 2} : Finset Int)) :=
  toggleExpanded_only_changes_toggled_id {1, 2} 1 2 (by decide)

/-- C7: with empty search, no selected grades, facet sentinels and the default
sort key, the pipeline returns exactly the whole input row set, stably sorted
by the default key. -/
theorem default_inputs_show_all_rows_sorted (objectives : List LearningObjective) :
    filteredAndSortedObjectives objectives "" [] "all" "all" defaultSortBy =
      objectives.mergeSort (rowLE defaultSortBy) ∧
    (filteredAndSortedObjectives objectives "" [] "all" "all" defaultSortBy).Perm
      objectives := by
  have hfilter : filterObjectives objectives "" [] "all" "all" = objectives := by
    apply List.filter_eq_self.mpr
    intro a _
    simp [visibleRow, matchesSearch, matchesGrade, matchesSubject, matchesPriority]
  refine ⟨?_, ?_⟩
  · rw [filteredAndSortedObjectives, hfilter]
  · rw [filteredAndSortedObjectives, hfilter]
    exact List.mergeSort_perm _ _

/-- C3: the multi-select grade facet agrees with its specification (empty
selection matches all; otherwise membership of the effective, possibly
Algebra-I-remapped grade), and the scenario row with Subject "Algebra I" and
stored Grade Level "7th" is visible when only "8th" is selected. -/
theorem multiselect_grade_matches_spec :
    (∀ (r : LearningObjective) (selected : List String),
       matchesGrade r selected = true ↔ gradeFacetSpec r selected) ∧
    row3 ∈ filteredAndSortedObjectives [row3] "" ["8th"] "all" "all"
      SortBy.subject := by
  constructor
  · intro r selected
    unfold matchesGrade gradeFacetSpec effectiveGrade
    by_cases hs : r.subject = some "Algebra I"
    · simp [hs, List.isEmpty_iff]
    · cases hg : r.gradeLevel <;>
        simp [hs, hg, List.isEmpty_iff]
  · have h : filterObjectives [row3] "" ["8th"] "all" "all" = [row3] := by decide
    unfold filteredAndSortedObjectives
    rw [h]
    simp

/-- C2: with the facet filters at their no-constraint sentinels, a row is
visible iff it is an input row and either the search text is empty or the
lowercased search text is a contiguous substring of the lowercased Objective,
Standard, or Plain Language field (a missing field never matches); hence every
excluded input row matches none of the three fields when the search text is
non-empty. -/
theorem search_visibility_characterization
    (objectives : List LearningObjective) (searchTerm : String) (sortBy : SortBy)
    (r : LearningObjective) :
    r ∈ filteredAndSortedObjectives objectives searchTerm [] "all" "all" sortBy ↔
      r ∈ objectives ∧
      (searchTerm = "" ∨
       (∃ t, r.objective = some t ∧
          (strToLower searchTerm).data <:+: (strToLower t).data) ∨
       (∃ t, r.standard = some t ∧
          (strToLower searchTerm).data <:+: (strToLower t).data) ∨
       (∃ t, r.plainLanguage = some t ∧
          (strToLower searchTerm).data <:+: (strToLower t).data)) := by
  simp only [filteredAndSortedObjectives, filterObjectives, visibleRow,
    List.mem_mergeSort, List.mem_filter, Bool.and_eq_true]
  simp [matchesSearch, matchesGrade, matchesSubject, matchesPriority,
    containsCI_eq_true_iff, and_assoc, or_assoc]

/-- A concrete row whose Priority Level is the label "High". -/
def rowHigh : LearningObjective :=
  { blankRow with id := 1, priorityLevel := some "High" }

/-- Counterexample to C5 as stated: "Hi" occurs case-insensitively as a
substring of the row's Priority Level "High", yet the priority facet filter
rejects the row, because the filter compares by exact string equality. -/
theorem priority_filter_substring_counterexample :
    containsCI rowHigh.priorityLevel "Hi" = true ∧
    matchesPriority rowHigh "Hi" = false := by decide

/-- C5 amended: the priority facet filter compares the row's Priority Level to
the filter value by exact string equality (with "all" and "" as no-constraint
sentinels), while case-insensitive substring matching of priority labels is
used only by the badge-color classifier. -/
theorem priority_filter_exact_badge_substring :
    (∀ (r : LearningObjective) (p : String), p ≠ "all" → p ≠ "" →
       (matchesPriority r p = true ↔ r.priorityLevel = some p)) ∧
    (∀ t : String, strIncludes (strToLower t) "high" = true →
       getPriorityBadgeColor (some t) = "bg-priority-high text-white") := by
  constructor
  · intro r p h1 h2
    simp [matchesPriority, h1, h2]
  · intro t ht
    simp [getPriorityBadgeColor, ht]

/-- Witness for the amended C5 at concrete labels. -/
theorem priority_filter_exact_badge_substring_witness :
    matchesPriority rowHigh "High" = true ∧
    getPriorityBadgeColor (some "Very HIGH") = "bg-priority-high text-white" :=
  ⟨(priority_filter_exact_badge_substring.1 rowHigh "High" (by decide)
      (by decide)).mpr (by decide),
   priority_filter_exact_badge_substring.2 "Very HIGH" (by decide)⟩

/-- C6: when the fetch result carries an error, the loader appends the error
to the log, clears the loading flag, leaves the row set empty, the visible row
count is 0, and the "no results" card renders through the same condition that
a successful fetch of zero rows triggers. -/
theorem fetch_failure_silent_degradation (res : FetchResult) (e : String)
    (h : res.error = some e) (searchTerm : String) (selectedGrades : List String)
    (subjectFilter priorityFilter : String) (sortBy : SortBy) :
    (fetchObjectives res initialState).objectives = [] ∧
    (fetchObjectives res initialState).loading = false ∧
    (fetchObjectives res initialState).errorLog =
      ["Error fetching learning objectives: " ++ e] ∧
    (filteredAndSortedObjectives (fetchObjectives res initialState).objectives
      searchTerm selectedGrades subjectFilter priorityFilter sortBy).length = 0 ∧
    showNoResults (fetchObjectives res initialState) searchTerm selectedGrades
      subjectFilter priorityFilter sortBy = true ∧
    showNoResults (fetchObjectives ⟨some [], none⟩ initialState) searchTerm
      selectedGrades subjectFilter priorityFilter sortBy = true := by
  simp [fetchObjectives, h, initialState, showNoResults,
    filteredAndSortedObjectives, filterObjectives]

/-- Witness for C6 at a concrete failing fetch result. -/
theorem fetch_failure_silent_degradation_witness :
    (fetchObjectives ⟨none, some "network"⟩ initialState).objectives = [] ∧
    (fetchObjectives ⟨none, some "network"⟩ initialState).loading = false ∧
    (fetchObjectives ⟨none, some "network"⟩ initialState).errorLog =
      ["Error fetching learning objectives: " ++ "network"] ∧
    (filteredAndSortedObjectives
      (fetchObjectives ⟨none, some "network"⟩ initialState).objectives
      "" [] "all" "all" SortBy.subject).length = 0 ∧
    showNoResults (fetchObjectives ⟨none, some "network"⟩ initialState) "" []
      "all" "all" SortBy.subject = true ∧
    showNoResults (fetchObjectives ⟨some [], none⟩ initialState) "" []
      "all" "all" SortBy.subject = true :=
  fetch_failure_silent_degradation ⟨none, some "network"⟩ "network" rfl
    "" [] "all" "all" SortBy.subject

/-- C10: when every selected grade is one of the fixed options "6th", "7th",
"8th" and the selection is non-empty, a row whose effective grade is a
composite label (one containing a comma) fails the grade facet and is excluded
from the visible set. -/
theorem composite_grade_label_never_matches
    (selectedGrades : List String) (r : LearningObjective) (g : String)
    (hne : selectedGrades ≠ [])
    (hsub : ∀ x ∈ selectedGrades, x ∈ availableGrades)
    (hg : effectiveGrade r = some g) (hcomma : ',' ∈ g.data) :
    matchesGrade r selectedGrades = false ∧
    ∀ (objectives : List LearningObjective)
      (searchTerm subjectFilter priorityFilter : String) (sortBy : SortBy),
      r ∉ filteredAndSortedObjectives objectives searchTerm selectedGrades
            subjectFilter priorityFilter sortBy := by
  have hnotmem : g ∉ selectedGrades := by
    intro hmem
    have hav := hsub g hmem
    simp only [availableGrades, List.mem_cons, List.not_mem_nil, or_false] at hav
    rcases hav with h6 | h7 | h8
    · exact (by decide : ¬ (',' ∈ ("6th" : String).data)) (h6 ▸ hcomma)
    · exact (by decide : ¬ (',' ∈ ("7th" : String).data)) (h7 ▸ hcomma)
    · exact (by decide : ¬ (',' ∈ ("8th" : String).data)) (h8 ▸ hcomma)
  have hmg : matchesGrade r selectedGrades = false := by
    unfold matchesGrade
    rw [hg]
    simp [List.isEmpty_iff, hne, hnotmem]
  refine ⟨hmg, ?_⟩
  intro objectives searchTerm subjectFilter priorityFilter sortBy hmem
  simp only [filteredAndSortedObjectives, filterObjectives, visibleRow,
    List.mem_mergeSort, List.mem_filter, Bool.and_eq_true] at hmem
  rw [hmg] at hmem
  simp at hmem

/-- A concrete row with the composite grade label "6th,7th,8th". -/
def rowComposite : LearningObjective :=
  { blankRow with
    id := 7
    subject := some "Math"
    gradeLevel := some "6th,7th,8th" }

/-- Witness for C10 at a concrete composite-grade row and selection. -/
theorem composite_grade_label_never_matches_witness :
    matchesGrade rowComposite ["6th"] = false ∧
    rowComposite ∉ filteredAndSortedObjectives [rowComposite] "" ["6th"]
      "all" "all" SortBy.subject :=
  ⟨(composite_grade_label_never_matches ["6th"] rowComposite "6th,7th,8th"
      (by decide) (by decide) (by decide) (by decide)).1,
   (composite_grade_label_never_matches ["6th"] rowComposite "6th,7th,8th"
      (by decide) (by decide) (by decide) (by decide)).2
     [rowComposite] "" "all" "all" SortBy.subject⟩

/-- The sort comparator is transitive. -/
theorem rowLEV0_trans (k : SortByV0) (a b c : LearningObjective)
    (hab : rowLEV0 k a b = true) (hbc : rowLEV0 k b c = true) :
    rowLEV0 k a c = true := by
  simp only [rowLEV0, decide_eq_true_eq] at hab hbc ⊢
  exact le_trans hab hbc

/-- The sort comparator is total. -/
theorem rowLEV0_total (k : SortByV0) (a b : LearningObjective) :
    (rowLEV0 k a b || rowLEV0 k b a) = true := by
  simp only [rowLEV0, Bool.or_eq_true, decide_eq_true_eq]
  exact le_total _ _

/-- C4: for every filter state and every sort key (grade, subject, priority,
as in the `part_000` variant), consecutive rows of the pipeline output are in
ascending order of the selected field (missing values as the empty string),
and the sort is stable: for each key value, the rows carrying that value
appear in exactly the order the filter stage produced them. -/
theorem sort_is_ascending_and_stable
    (objectives : List LearningObjective) (searchTerm : String)
    (gradeFilter subjectFilter priorityFilter : String) (k : SortByV0) :
    (filteredAndSortedObjectivesV0 objectives searchTerm gradeFilter
        subjectFilter priorityFilter k).Pairwise
      (fun a b => sortFieldV0 k a ≤ sortFieldV0 k b) ∧
    ∀ v : String,
      (filteredAndSortedObjectivesV0 objectives searchTerm gradeFilter
          subjectFilter priorityFilter k).filter (fun r => sortFieldV0 k r == v) =
        (filterObjectivesV0 objectives searchTerm gradeFilter subjectFilter
          priorityFilter).filter (fun r => sortFieldV0 k r == v) := by
  constructor
  · have hs := @List.sorted_mergeSort _ (rowLEV0 k) (rowLEV0_trans k)
      (rowLEV0_total k)
      (filterObjectivesV0 objectives searchTerm gradeFilter subjectFilter
        priorityFilter)
    unfold filteredAndSortedObjectivesV0
    exact hs.imp (fun h => by simpa [rowLEV0] using h)
  · intro v
    unfold filteredAndSortedObjectivesV0
    have hperm :
        ((filterObjectivesV0 objectives searchTerm gradeFilter subjectFilter
          priorityFilter).mergeSort (rowLEV0 k)).filter
            (fun r => sortFieldV0 k r == v) |>.Perm
          ((filterObjectivesV0 objectives searchTerm gradeFilter subjectFilter
            priorityFilter).filter (fun r => sortFieldV0 k r == v)) :=
      (List.mergeSort_perm _ (rowLEV0 k)).filter _
    have hpair :
        ((filterObjectivesV0 objectives searchTerm gradeFilter subjectFilter
          priorityFilter).filter (fun r => sortFieldV0 k r == v)).Pairwise
          (fun a b => rowLEV0 k a b = true) := by
      apply List.pairwise_of_forall_mem_list
      intro a ha b hb
      have ha' := (List.mem_filter.mp ha).2
      have hb' := (List.mem_filter.mp hb).2
      simp only [beq_iff_eq] at ha' hb'
      simp [rowLEV0, ha', hb']
    have hsub :
        ((filterObjectivesV0 objectives searchTerm gradeFilter subjectFilter
          priorityFilter).filter (fun r => sortFieldV0 k r == v)).Sublist
          ((filterObjectivesV0 objectives searchTerm gradeFilter subjectFilter
            priorityFilter).mergeSort (rowLEV0 k)) :=
      List.sublist_mergeSort (rowLEV0_trans k) (rowLEV0_total k) hpair
        (List.filter_sublist _)
    have hself :
        ((filterObjectivesV0 objectives searchTerm gradeFilter subjectFilter
          priorityFilter).filter (fun r => sortFieldV0 k r == v)).filter
            (fun r => sortFieldV0 k r == v) =
          (filterObjectivesV0 objectives searchTerm gradeFilter subjectFilter
            priorityFilter).filter (fun r => sortFieldV0 k r == v) :=
      List.filter_eq_self.mpr (fun a ha => (List.mem_filter.mp ha).2)
    have hsub2 := hself ▸ List.Sublist.filter (fun r => sortFieldV0 k r == v) hsub
    exact (hsub2.eq_of_length hperm.length_eq.symm).symm

/-- C8: the derivation is total and never yields rows outside the input (it is
a subpermutation of the input row set); a row whose three searchable fields
are all missing fails every non-empty search; and a missing sort field is
compared as the empty string, for each sort key of either variant. -/
theorem malformed_fields_degrade_gracefully :
    (∀ (objectives : List LearningObjective) (searchTerm : String)
       (selectedGrades : List String) (subjectFilter priorityFilter : String)
       (sortBy : SortBy),
       (filteredAndSortedObjectives objectives searchTerm selectedGrades
         subjectFilter priorityFilter sortBy).Subperm objectives) ∧
    (∀ (r : LearningObjective) (searchTerm : String),
       r.objective = none → r.standard = none → r.plainLanguage = none →
       searchTerm ≠ "" → matchesSearch r searchTerm = false) ∧
    (∀ r : LearningObjective, r.subject = none →
       sortField SortBy.subject r = "") ∧
    (∀ r : LearningObjective, r.priorityLevel = none →
       sortField SortBy.priority r = "") ∧
    (∀ r : LearningObjective, r.gradeLevel = none →
       sortFieldV0 SortByV0.grade r = "") := by
  refine ⟨?_, ?_, ?_, ?_, ?_⟩
  · intro objectives searchTerm selectedGrades subjectFilter priorityFilter sortBy
    exact ⟨filterObjectives objectives searchTerm selectedGrades subjectFilter
      priorityFilter, (List.mergeSort_perm _ _).symm, List.filter_sublist _⟩
  · intro r searchTerm h1 h2 h3 hs
    simp [matchesSearch, containsCI, h1, h2, h3, hs]
  · intro r h
    simp [sortField, h]
  · intro r h
    simp [sortField, h]
  · intro r h
    simp [sortFieldV0, h]

/-- Witness for C8 at the all-missing row. -/
theorem malformed_fields_degrade_gracefully_witness :
    (filteredAndSortedObjectives [blankRow] "x" [] "all" "all"
      SortBy.subject).Subperm [blankRow] ∧
    matchesSearch blankRow "x" = false ∧
    sortField SortBy.subject blankRow = "" ∧
    sortField SortBy.priority blankRow = "" ∧
    sortFieldV0 SortByV0.grade blankRow = "" :=
  ⟨malformed_fields_degrade_gracefully.1 [blankRow] "x" [] "all" "all"
     SortBy.subject,
   malformed_fields_degrade_gracefully.2.1 blankRow "x" rfl rfl rfl (by decide),
   malformed_fields_degrade_gracefully.2.2.1 blankRow rfl,
   malformed_fields_degrade_gracefully.2.2.2.1 blankRow rfl,
   malformed_fields_degrade_gracefully.2.2.2.2 blankRow rfl⟩
